import Mathlib

/-
Shallow embedding of src/box/memtx_engine.c (the memtx in-memory storage
engine of tarantool) together with theorems settling the frozen claims
about it.  Definitions are translated from the C source; external helpers
that live outside this file (the small allocator, xlog, mempool) are
modelled by their observable effect on the state the engine code reads
and writes.
-/

/-! ## Tuple allocator model (memtx_tuple_delete, lines 1104-1120) -/

/-- Free mode of the small allocator (small/small.h).  The engine code
reads `memtx->alloc.free_mode` and compares it with `SMALL_DELAYED_FREE`. -/
inductive SmallFreeMode where
  | SMALL_FREE
  | SMALL_COLLECT_GARBAGE
  | SMALL_DELAYED_FREE
deriving DecidableEq

/-- The slice of `struct tuple_format` the engine reads in
`memtx_tuple_delete` and `memtx_tuple_chunk_new`. -/
structure TupleFormatModel where
  is_temporary : Bool
deriving DecidableEq

/-- The slice of `struct memtx_tuple` (version header) plus the base
`struct tuple` fields the engine reads. -/
structure MemtxTupleModel where
  /-- Snapshot generation version stamped at allocation. -/
  version : Nat
  /-- Reference count of the base tuple. -/
  refs : Nat
  /-- Byte size of the msgpack payload. -/
  bsize : Nat
  /-- Offset of the payload from the base tuple start. -/
  data_offset : Nat
deriving DecidableEq

/-- `tuple_size(tuple)`: total size of the base tuple, data offset plus
payload size (tuple.h helper used by `memtx_tuple_delete`). -/
def tuple_size (t : MemtxTupleModel) : Nat := t.data_offset + t.bsize

/-- `offsetof(struct memtx_tuple, base)`: the 4-byte version word precedes
the base tuple in the memtx tuple header. -/
def memtx_tuple_base_offset : Nat := 4

/-- Which of the two allocator calls `memtx_tuple_delete` makes. -/
inductive SmallFreeCall where
  | smfree (size : Nat)
  | smfree_delayed (size : Nat)
deriving DecidableEq

/-- `memtx_tuple_delete` (memtx_engine.c:1104-1120): after unreferencing
the format, free the tuple immediately with `smfree` when the allocator
is not in delayed-free mode, or the tuple's generation equals the current
snapshot version, or the format is temporary; otherwise push it onto the
delayed-free list with `smfree_delayed`. -/
def memtx_tuple_delete (free_mode : SmallFreeMode) (snapshot_version : Nat)
    (format : TupleFormatModel) (t : MemtxTupleModel) : SmallFreeCall :=
  let total := tuple_size t + memtx_tuple_base_offset
  if free_mode ≠ SmallFreeMode.SMALL_DELAYED_FREE ∨ t.version = snapshot_version ∨
     format.is_temporary then
    SmallFreeCall.smfree total
  else
    SmallFreeCall.smfree_delayed total

/-! ## Recovery state machine (lines 240-312, 372-396) -/

/-- Recovery state of the engine (`enum memtx_recovery_state` in
memtx_engine.h).  `MEMTX_INIT` models the source's first constant
(spelled MEMTX_INITIALIZED there; shortened here). -/
inductive MemtxRecoveryState where
  | MEMTX_INIT
  | MEMTX_INITIAL_RECOVERY
  | MEMTX_FINAL_RECOVERY
  | MEMTX_OK
deriving DecidableEq

open MemtxRecoveryState

/-- Position of a recovery state in the forward order
INITIALIZED, INITIAL_RECOVERY, FINAL_RECOVERY, OK. -/
def memtx_recovery_rank : MemtxRecoveryState → Nat
  | MEMTX_INIT => 0
  | MEMTX_INITIAL_RECOVERY => 1
  | MEMTX_FINAL_RECOVERY => 2
  | MEMTX_OK => 3

/-- State assigned by `memtx_engine_begin_initial_recovery`
(memtx_engine.c:240-259); the source asserts the state was
MEMTX_INITIALIZED before the assignment. -/
def memtx_engine_begin_initial_recovery (force_recovery : Bool) :
    MemtxRecoveryState :=
  if force_recovery then MEMTX_OK else MEMTX_INITIAL_RECOVERY

/-- State after `memtx_engine_begin_final_recovery`
(memtx_engine.c:261-292): a no-op from MEMTX_OK, otherwise (the source
asserts MEMTX_INITIAL_RECOVERY) go to FINAL_RECOVERY, or straight to OK
under force recovery. -/
def memtx_engine_begin_final_recovery (force_recovery : Bool)
    (s : MemtxRecoveryState) : MemtxRecoveryState :=
  if s = MEMTX_OK then s
  else if force_recovery then MEMTX_OK
  else MEMTX_FINAL_RECOVERY

/-- State after `memtx_engine_end_recovery` (memtx_engine.c:294-312):
when not already OK (the source asserts MEMTX_FINAL_RECOVERY), become OK. -/
def memtx_engine_end_recovery (s : MemtxRecoveryState) : MemtxRecoveryState :=
  if s ≠ MEMTX_OK then MEMTX_OK else s

/-- State assigned by `memtx_engine_bootstrap` (memtx_engine.c:372-396);
the source asserts the state was MEMTX_INITIALIZED before the assignment. -/
def memtx_engine_bootstrap : MemtxRecoveryState := MEMTX_OK

/-! ## Claim theorems: C1, C5 -/

/-- C1: for a tuple whose reference count has reached zero,
`memtx_tuple_delete` frees the memory immediately (smfree of the tuple's
total size) iff delayed-free mode is off, or the tuple's generation
equals the engine's snapshot version, or the format is temporary; in
every other case it pushes the tuple onto the delayed-free list
(smfree_delayed). -/
theorem C1_memtx_tuple_delete_immediate_iff
    (free_mode : SmallFreeMode) (snapshot_version : Nat)
    (format : TupleFormatModel) (t : MemtxTupleModel) (_hrefs : t.refs = 0) :
    (memtx_tuple_delete free_mode snapshot_version format t =
        SmallFreeCall.smfree (tuple_size t + memtx_tuple_base_offset) ↔
      (free_mode ≠ SmallFreeMode.SMALL_DELAYED_FREE ∨
       t.version = snapshot_version ∨ format.is_temporary = true)) ∧
    (memtx_tuple_delete free_mode snapshot_version format t =
        SmallFreeCall.smfree_delayed (tuple_size t + memtx_tuple_base_offset) ↔
      ¬ (free_mode ≠ SmallFreeMode.SMALL_DELAYED_FREE ∨
         t.version = snapshot_version ∨ format.is_temporary = true)) := by
  unfold memtx_tuple_delete
  by_cases h : free_mode ≠ SmallFreeMode.SMALL_DELAYED_FREE ∨
      t.version = snapshot_version ∨ format.is_temporary = true
  · simp [h]
  · simp [h]

/-- Witness for C1 at a concrete zero-refcount tuple kept by an active
delayed-free mode with an older generation and a non-temporary format. -/
theorem C1_memtx_tuple_delete_immediate_iff_witness :
    (⟨3, 0, 10, 8⟩ : MemtxTupleModel).refs = 0 ∧
    memtx_tuple_delete SmallFreeMode.SMALL_DELAYED_FREE 4 ⟨false⟩ ⟨3, 0, 10, 8⟩ =
      SmallFreeCall.smfree_delayed 22 :=
  ⟨rfl,
   ((C1_memtx_tuple_delete_immediate_iff SmallFreeMode.SMALL_DELAYED_FREE 4
        ⟨false⟩ ⟨3, 0, 10, 8⟩ rfl).2).2 (by decide)⟩

/-- C5: every transition of the recovery state machine performed by
begin_initial_recovery, begin_final_recovery, end_recovery and bootstrap
(force-recovery shortcuts included) advances the state along the order
INITIALIZED, INITIAL_RECOVERY, FINAL_RECOVERY, OK and never moves it
backward; the hypotheses are the assertions each function makes on the
entry state. -/
theorem C5_recovery_state_moves_forward (force_recovery : Bool)
    (s : MemtxRecoveryState) :
    (s = MEMTX_INIT →
      memtx_recovery_rank s ≤
        memtx_recovery_rank (memtx_engine_begin_initial_recovery force_recovery)) ∧
    (s = MEMTX_OK ∨ s = MEMTX_INITIAL_RECOVERY →
      memtx_recovery_rank s ≤
        memtx_recovery_rank (memtx_engine_begin_final_recovery force_recovery s)) ∧
    (s = MEMTX_OK ∨ s = MEMTX_FINAL_RECOVERY →
      memtx_recovery_rank s ≤
        memtx_recovery_rank (memtx_engine_end_recovery s)) ∧
    (s = MEMTX_INIT →
      memtx_recovery_rank s ≤ memtx_recovery_rank memtx_engine_bootstrap) := by
  cases force_recovery <;> cases s <;> decide

/-- Witness for C5 exercising all four transitions at concrete states
satisfying the respective assertions. -/
theorem C5_recovery_state_moves_forward_witness :
    memtx_recovery_rank MEMTX_INIT ≤
      memtx_recovery_rank (memtx_engine_begin_initial_recovery false) ∧
    memtx_recovery_rank MEMTX_INITIAL_RECOVERY ≤
      memtx_recovery_rank
        (memtx_engine_begin_final_recovery false MEMTX_INITIAL_RECOVERY) ∧
    memtx_recovery_rank MEMTX_FINAL_RECOVERY ≤
      memtx_recovery_rank (memtx_engine_end_recovery MEMTX_FINAL_RECOVERY) ∧
    memtx_recovery_rank MEMTX_INIT ≤ memtx_recovery_rank memtx_engine_bootstrap :=
  ⟨(C5_recovery_state_moves_forward false MEMTX_INIT).1 rfl,
   (C5_recovery_state_moves_forward false MEMTX_INITIAL_RECOVERY).2.1 (Or.inr rfl),
   (C5_recovery_state_moves_forward false MEMTX_FINAL_RECOVERY).2.2.1 (Or.inr rfl),
   (C5_recovery_state_moves_forward false MEMTX_INIT).2.2.2 rfl⟩

/-! ## Index extent pool with reservation (memtx_engine.c:1157-1232) -/

/-- One call of the underlying mempool together with the GC-retry loop
wrapped around it in the source (`while ((ext = mempool_alloc(..)) == NULL)
{ memtx_engine_run_gc(memtx, &stop); if (stop) break; }`): the observable
outcome is the block obtained, if any, and how many GC steps were run. -/
structure PoolCallOutcome where
  result : Option Nat
  gc_steps : Nat
deriving DecidableEq

/-- Environment supplying the successive mempool-with-GC attempts. -/
def PoolSupply : Type := Nat → PoolCallOutcome

/-- The extent-reservation slice of `struct memtx_engine`:
`num_reserved_extents` and the intrusive `reserved_extents` free list.
The source threads the list through the first word of each free block;
here it is the list of blocks in stack order. -/
structure ExtentPoolState where
  num_reserved_extents : Nat
  reserved_extents : List Nat
deriving DecidableEq

/-- The separately maintained counter always counts the blocks on the
intrusive free list. -/
def extent_pool_inv (s : ExtentPoolState) : Prop :=
  s.reserved_extents.length = s.num_reserved_extents

/-- The `while (memtx->num_reserved_extents < num)` loop of
`memtx_index_extent_reserve` (lines 1214-1230).  Each successful pool
call is spliced onto the reserved list and counted; a failed pool call
(after GC retries) makes the whole reserve fail with -1 (`none`).  Each
iteration raises the counter by exactly one, so the loop runs
`num - num_reserved_extents` times; `idx` indexes the supply. -/
def memtx_index_extent_reserve_loop (supply : PoolSupply) :
    Nat → Nat → ExtentPoolState → Option (ExtentPoolState × Nat)
  | 0, idx, s => some (s, idx)
  | need + 1, idx, s =>
    match (supply idx).result with
    | none => none
    | some ext =>
      memtx_index_extent_reserve_loop supply need (idx + 1)
        { num_reserved_extents := s.num_reserved_extents + 1,
          reserved_extents := ext :: s.reserved_extents }

/-- `memtx_index_extent_reserve(memtx, num)` (lines 1204-1232): keep
allocating from the pool until `num` extents are reserved; `some` is the
successful return 0, `none` the out-of-memory return -1. -/
def memtx_index_extent_reserve (num : Nat) (s : ExtentPoolState)
    (supply : PoolSupply) : Option (ExtentPoolState × Nat) :=
  memtx_index_extent_reserve_loop supply (num - s.num_reserved_extents) 0 s

/-- Observable outcome of one `memtx_index_extent_alloc` call: its return
value, the new reservation state, whether the underlying mempool was
invoked and how many GC steps were run. -/
structure ExtentAllocOutcome where
  result : Option Nat
  state : ExtentPoolState
  used_mempool : Bool
  gc_steps : Nat
deriving DecidableEq

/-- `memtx_index_extent_alloc` (lines 1160-1188): if the reserved list is
non-empty, pop its head (the counter is asserted positive and
decremented) without touching the mempool; otherwise call the mempool
with GC retries and report out-of-memory if that still fails. -/
def memtx_index_extent_alloc (s : ExtentPoolState) (supply : PoolSupply)
    (idx : Nat) : ExtentAllocOutcome :=
  match s.reserved_extents with
  | ext :: rest =>
    { result := some ext,
      state := { num_reserved_extents := s.num_reserved_extents - 1,
                 reserved_extents := rest },
      used_mempool := false,
      gc_steps := 0 }
  | [] =>
    let call := supply idx
    { result := call.result, state := s, used_mempool := true,
      gc_steps := call.gc_steps }

/-- `n` consecutive `memtx_index_extent_alloc` calls with no intervening
reserve or alloc, threading the state. -/
def memtx_index_extent_alloc_seq (supply : PoolSupply) :
    Nat → Nat → ExtentPoolState → List ExtentAllocOutcome
  | 0, _, _ => []
  | n + 1, idx, s =>
    let o := memtx_index_extent_alloc s supply idx
    o :: memtx_index_extent_alloc_seq supply n (idx + 1) o.state

/-- A successful reserve loop adds exactly its fuel to the counter and
preserves the list/counter agreement. -/
theorem memtx_index_extent_reserve_loop_spec (supply : PoolSupply) :
    ∀ (need idx : Nat) (s s' : ExtentPoolState) (idx' : Nat),
      memtx_index_extent_reserve_loop supply need idx s = some (s', idx') →
      s'.num_reserved_extents = s.num_reserved_extents + need ∧
      (extent_pool_inv s → extent_pool_inv s') := by
  intro need
  induction need with
  | zero =>
    intro idx s s' idx' h
    simp only [memtx_index_extent_reserve_loop, Option.some.injEq,
      Prod.mk.injEq] at h
    obtain ⟨h1, -⟩ := h
    subst h1
    exact ⟨rfl, fun hv => hv⟩
  | succ n ih =>
    intro idx s s' idx' h
    simp only [memtx_index_extent_reserve_loop] at h
    cases hsup : (supply idx).result with
    | none => rw [hsup] at h; exact absurd h (by simp)
    | some ext =>
      rw [hsup] at h
      have hrec := ih (idx + 1)
        { num_reserved_extents := s.num_reserved_extents + 1,
          reserved_extents := ext :: s.reserved_extents } s' idx' h
      have h1 : s'.num_reserved_extents = s.num_reserved_extents + 1 + n :=
        hrec.1
      refine ⟨by omega, fun hinv => hrec.2 ?_⟩
      simp only [extent_pool_inv, List.length_cons] at hinv ⊢
      omega

/-- While at least `n` extents are reserved, `n` consecutive allocations
all pop from the reserved list: each succeeds, never invokes the
mempool and never runs a GC step. -/
theorem memtx_index_extent_alloc_seq_reserved (supply : PoolSupply) :
    ∀ (n idx : Nat) (s : ExtentPoolState), extent_pool_inv s →
      n ≤ s.num_reserved_extents →
      ∀ o ∈ memtx_index_extent_alloc_seq supply n idx s,
        o.result.isSome = true ∧ o.used_mempool = false ∧ o.gc_steps = 0 := by
  intro n
  induction n with
  | zero => intro idx s _ _ o ho; simp [memtx_index_extent_alloc_seq] at ho
  | succ m ih =>
    intro idx s hinv hn o ho
    cases hres : s.reserved_extents with
    | nil =>
      exfalso
      simp only [extent_pool_inv, hres, List.length_nil] at hinv
      omega
    | cons ext rest =>
      simp only [extent_pool_inv, hres, List.length_cons] at hinv
      simp only [memtx_index_extent_alloc_seq, memtx_index_extent_alloc,
        hres, List.mem_cons] at ho
      rcases ho with ho | ho
      · simp [ho]
      · exact ih (idx + 1)
          { num_reserved_extents := s.num_reserved_extents - 1,
            reserved_extents := rest }
          (by simp only [extent_pool_inv]; omega)
          (by show m ≤ s.num_reserved_extents - 1; omega) o ho

/-- C2: if `memtx_index_extent_reserve(N)` returns success then at least
N extents are reserved, and the next N `memtx_index_extent_alloc` calls
(with no intervening reserve or alloc) all succeed by popping the
reserved list, never invoking the underlying mempool and never running a
GC step, so none of them can return out-of-memory. -/
theorem C2_extent_reserve_guarantees_allocs (num : Nat)
    (s : ExtentPoolState) (supply supply2 : PoolSupply)
    (hinv : extent_pool_inv s) (s' : ExtentPoolState) (idx' : Nat)
    (hres : memtx_index_extent_reserve num s supply = some (s', idx')) :
    num ≤ s'.num_reserved_extents ∧
    ∀ o ∈ memtx_index_extent_alloc_seq supply2 num 0 s',
      o.result.isSome = true ∧ o.used_mempool = false ∧ o.gc_steps = 0 := by
  have hspec := memtx_index_extent_reserve_loop_spec supply
    (num - s.num_reserved_extents) 0 s s' idx' hres
  have hge : num ≤ s'.num_reserved_extents := by omega
  exact ⟨hge,
    memtx_index_extent_alloc_seq_reserved supply2 num 0 s' (hspec.2 hinv) hge⟩

/-- Witness for C2: reserving 2 extents from an empty reservation list
succeeds against a cooperative pool, and both subsequent allocations pop
the reserved list. -/
theorem C2_extent_reserve_guarantees_allocs_witness :
    2 ≤ (ExtentPoolState.mk 2 [101, 100]).num_reserved_extents ∧
    ∀ o ∈ memtx_index_extent_alloc_seq (fun i => ⟨some (200 + i), 0⟩) 2 0
        (ExtentPoolState.mk 2 [101, 100]),
      o.result.isSome = true ∧ o.used_mempool = false ∧ o.gc_steps = 0 :=
  C2_extent_reserve_guarantees_allocs 2 ⟨0, []⟩
    (fun i => ⟨some (100 + i), 0⟩) (fun i => ⟨some (200 + i), 0⟩)
    rfl ⟨2, [101, 100]⟩ 2 rfl

/-! ## Checkpoint and GC engine state (memtx_engine.c:454-736, 879-902) -/

/-- A pending GC task (`struct memtx_gc_task`): its identity and whether
its next `run(task, &task_done)` step reports completion. -/
structure GcTask where
  tid : Nat
  step_done : Bool
deriving DecidableEq

/-- The slice of `struct checkpoint` the engine facade reads. -/
structure CheckpointModel where
  touch : Bool
  waiting_for_snap_thread : Bool
deriving DecidableEq

/-- The checkpoint/GC slice of `struct memtx_engine`: the snapshot
version counter, the allocator's SMALL_DELAYED_FREE_MODE option, the
active checkpoint, the two GC queues, and a log of the finalizers
(`task->vtab->free(task)`) called so far, in call order. -/
structure MemtxEngineModel where
  snapshot_version : Nat
  delayed_free_mode : Bool
  checkpoint : Option CheckpointModel
  gc_queue : List GcTask
  gc_to_free : List GcTask
  freed : List GcTask
deriving DecidableEq

/-- Observable steps of `memtx_engine_begin_checkpoint` after the entry
list has been built, in execution order. -/
inductive BeginCheckpointEvent where
  | checkpoint_deleted
  | snapshot_version_incremented
  | delayed_free_enabled
deriving DecidableEq

/-- `memtx_engine_begin_checkpoint` (lines 601-622).  The function
asserts `memtx->checkpoint == NULL`, stores the result of
`checkpoint_new` (NULL on allocation failure, modelled by pattern
`new_ok`), and on `space_foreach(checkpoint_add_space, ..)` failure
(`add_spaces_ok = false`) deletes the checkpoint and resets the pointer
before returning -1; only on success does it increment
`snapshot_version` and then enable delayed-free mode.  Returns the C
return code, the final state, and the ordered event list. -/
def memtx_engine_begin_checkpoint (m : MemtxEngineModel) (new_ok : Bool)
    (add_spaces_ok : Bool) :
    Int × MemtxEngineModel × List BeginCheckpointEvent :=
  if new_ok = false then
    (-1, { m with checkpoint := none }, [])
  else
    let m1 := { m with checkpoint := some (CheckpointModel.mk false false) }
    if add_spaces_ok = false then
      (-1, { m1 with checkpoint := none },
        [BeginCheckpointEvent.checkpoint_deleted])
    else
      (0, { m1 with snapshot_version := m1.snapshot_version + 1,
                    delayed_free_mode := true },
        [BeginCheckpointEvent.snapshot_version_incremented,
         BeginCheckpointEvent.delayed_free_enabled])

/-- `memtx_engine_gc_after_checkpoint` (lines 660-667): call each
deferred task's finalizer and empty `gc_to_free`. -/
def memtx_engine_gc_after_checkpoint (m : MemtxEngineModel) :
    MemtxEngineModel :=
  { m with freed := m.freed ++ m.gc_to_free, gc_to_free := [] }

/-- `memtx_engine_commit_checkpoint` (lines 669-708): clear delayed-free
mode; unless the checkpoint is a touch, rename the in-progress file
(`rename_ok = false` panics, modelled as `none`); register the vclock;
delete the checkpoint and reset the pointer; finally drain `gc_to_free`
via `memtx_engine_gc_after_checkpoint`.  `ckpt` is the checkpoint the
engine pointer designates. -/
def memtx_engine_commit_checkpoint (m : MemtxEngineModel)
    (ckpt : CheckpointModel) (rename_ok : Bool) : Option MemtxEngineModel :=
  let m1 := { m with delayed_free_mode := false }
  if ckpt.touch = false ∧ rename_ok = false then
    none
  else
    some (memtx_engine_gc_after_checkpoint { m1 with checkpoint := none })

/-- `memtx_engine_abort_checkpoint` (lines 710-736): join the writer
thread if it is still running, clear delayed-free mode, unlink the
in-progress file (best effort), delete the checkpoint and reset the
pointer.  `gc_to_free` is not touched. -/
def memtx_engine_abort_checkpoint (m : MemtxEngineModel) : MemtxEngineModel :=
  { m with delayed_free_mode := false, checkpoint := none }

/-- Outcome of `memtx_engine_run_gc` (lines 879-902): the new engine
state, the `*stop` output, and the ids of the tasks on which one `run`
step was executed during this call. -/
structure RunGcOutcome where
  state : MemtxEngineModel
  stop : Bool
  stepped : List Nat
deriving DecidableEq

/-- `memtx_engine_run_gc` (lines 879-902): `*stop = stailq_empty(queue)`
and return if set; otherwise run one step of the head task; if the step
reports done, shift the task off the queue and either call its finalizer
right away (no active checkpoint) or append it to `gc_to_free` (a
checkpoint is active). -/
def memtx_engine_run_gc (m : MemtxEngineModel) : RunGcOutcome :=
  match m.gc_queue with
  | [] => { state := m, stop := true, stepped := [] }
  | task :: rest =>
    if task.step_done then
      let m1 := { m with gc_queue := rest }
      if m.checkpoint = none then
        { state := { m1 with freed := m1.freed ++ [task] },
          stop := false, stepped := [task.tid] }
      else
        { state := { m1 with gc_to_free := m1.gc_to_free ++ [task] },
          stop := false, stepped := [task.tid] }
    else
      { state := m, stop := false, stepped := [task.tid] }

/-! ## Claim theorems: C3, C4, C10 -/

/-- C3: `memtx_engine_begin_checkpoint` increments `snapshot_version`
before enabling delayed-free mode (the success event list puts the
increment first), and when building the checkpoint's space entries fails
it returns -1 with the engine state unchanged: the checkpoint object is
deleted, the checkpoint pointer stays null, `snapshot_version` is not
incremented and delayed-free mode is not enabled. -/
theorem C3_begin_checkpoint_order_and_error (m : MemtxEngineModel)
    (hck : m.checkpoint = none) :
    memtx_engine_begin_checkpoint m true true =
      (0, { m with checkpoint := some (CheckpointModel.mk false false),
                   snapshot_version := m.snapshot_version + 1,
                   delayed_free_mode := true },
        [BeginCheckpointEvent.snapshot_version_incremented,
         BeginCheckpointEvent.delayed_free_enabled]) ∧
    memtx_engine_begin_checkpoint m true false =
      (-1, m, [BeginCheckpointEvent.checkpoint_deleted]) := by
  cases m with
  | mk sv df ck gq gf fr =>
    simp only [MemtxEngineModel.checkpoint] at hck
    subst hck
    constructor <;> rfl

/-- Witness for C3 at a concrete engine state with no active checkpoint. -/
theorem C3_begin_checkpoint_order_and_error_witness :
    memtx_engine_begin_checkpoint ⟨7, false, none, [], [], []⟩ true true =
      (0, ⟨8, true, some (CheckpointModel.mk false false), [], [], []⟩,
        [BeginCheckpointEvent.snapshot_version_incremented,
         BeginCheckpointEvent.delayed_free_enabled]) ∧
    memtx_engine_begin_checkpoint ⟨7, false, none, [], [], []⟩ true false =
      (-1, ⟨7, false, none, [], [], []⟩,
        [BeginCheckpointEvent.checkpoint_deleted]) :=
  C3_begin_checkpoint_order_and_error ⟨7, false, none, [], [], []⟩ rfl

/-- C4 counterexample: the claim says both commit and abort drain
`gc_to_free`, but `memtx_engine_abort_checkpoint` never calls
`memtx_engine_gc_after_checkpoint`: aborting with one deferred task
leaves `gc_to_free` non-empty and calls no finalizer. -/
theorem C4_abort_leaves_gc_to_free_counterexample :
    (memtx_engine_abort_checkpoint
        ⟨5, true, some (CheckpointModel.mk false false), [],
          [GcTask.mk 7 true], []⟩).gc_to_free = [GcTask.mk 7 true] ∧
    ¬ (memtx_engine_abort_checkpoint
        ⟨5, true, some (CheckpointModel.mk false false), [],
          [GcTask.mk 7 true], []⟩).gc_to_free = [] := by
  constructor <;> decide

/-- C4 (amended): `memtx_engine_commit_checkpoint` drains `gc_to_free` by
calling each deferred task's finalizer, so after commit the queue is
empty; `memtx_engine_abort_checkpoint` leaves `gc_to_free` untouched and
calls no finalizer. -/
theorem C4_commit_drains_abort_keeps_gc_to_free (m : MemtxEngineModel)
    (ckpt : CheckpointModel) (rename_ok : Bool)
    (_hck : m.checkpoint = some ckpt)
    (_hwait : ckpt.waiting_for_snap_thread = false)
    (m' : MemtxEngineModel)
    (hcommit : memtx_engine_commit_checkpoint m ckpt rename_ok = some m') :
    (m'.gc_to_free = [] ∧ m'.freed = m.freed ++ m.gc_to_free) ∧
    ((memtx_engine_abort_checkpoint m).gc_to_free = m.gc_to_free ∧
     (memtx_engine_abort_checkpoint m).freed = m.freed) := by
  refine ⟨?_, rfl, rfl⟩
  unfold memtx_engine_commit_checkpoint at hcommit
  by_cases h : ckpt.touch = false ∧ rename_ok = false
  · simp [h] at hcommit
  · simp only [h, if_false, Option.some.injEq] at hcommit
    subst hcommit
    exact ⟨rfl, rfl⟩

/-- Witness for C4 at a concrete commit of a non-touch checkpoint with a
successful rename and one deferred task. -/
theorem C4_commit_drains_abort_keeps_gc_to_free_witness :
    ((⟨5, false, none, [], [], [GcTask.mk 7 true]⟩ :
        MemtxEngineModel).gc_to_free = [] ∧
      (⟨5, false, none, [], [], [GcTask.mk 7 true]⟩ :
        MemtxEngineModel).freed = [] ++ [GcTask.mk 7 true]) ∧
    ((memtx_engine_abort_checkpoint
        ⟨5, true, some (CheckpointModel.mk false false), [],
          [GcTask.mk 7 true], []⟩).gc_to_free = [GcTask.mk 7 true] ∧
     (memtx_engine_abort_checkpoint
        ⟨5, true, some (CheckpointModel.mk false false), [],
          [GcTask.mk 7 true], []⟩).freed = []) :=
  C4_commit_drains_abort_keeps_gc_to_free
    ⟨5, true, some (CheckpointModel.mk false false), [], [GcTask.mk 7 true], []⟩
    (CheckpointModel.mk false false) true rfl rfl
    ⟨5, false, none, [], [], [GcTask.mk 7 true]⟩ rfl

/-- C10: each `memtx_engine_run_gc` call sets `*stop` iff `gc_queue` is
empty on entry; otherwise it runs exactly one step of the head task, and
when the step reports done the task is shifted off `gc_queue` and its
finalizer is called immediately if no checkpoint is active, or the task
is appended to `gc_to_free` if one is. -/
theorem C10_run_gc_one_step (m : MemtxEngineModel) :
    ((memtx_engine_run_gc m).stop = true ↔ m.gc_queue = []) ∧
    (m.gc_queue = [] → memtx_engine_run_gc m = RunGcOutcome.mk m true []) ∧
    (∀ task rest, m.gc_queue = task :: rest →
      (memtx_engine_run_gc m).stepped = [task.tid] ∧
      (task.step_done = true →
        (memtx_engine_run_gc m).state.gc_queue = rest ∧
        (m.checkpoint = none →
          (memtx_engine_run_gc m).state.freed = m.freed ++ [task] ∧
          (memtx_engine_run_gc m).state.gc_to_free = m.gc_to_free) ∧
        (m.checkpoint ≠ none →
          (memtx_engine_run_gc m).state.gc_to_free = m.gc_to_free ++ [task] ∧
          (memtx_engine_run_gc m).state.freed = m.freed)) ∧
      (task.step_done = false → (memtx_engine_run_gc m).state = m)) := by
  refine ⟨?_, ?_, ?_⟩
  · cases hq : m.gc_queue with
    | nil => simp [memtx_engine_run_gc, hq]
    | cons task rest =>
      cases hd : task.step_done <;> cases hc : m.checkpoint <;>
        simp [memtx_engine_run_gc, hq, hd, hc]
  · intro hq
    simp [memtx_engine_run_gc, hq]
  · intro task rest hq
    cases hd : task.step_done <;> cases hc : m.checkpoint <;>
      simp [memtx_engine_run_gc, hq, hd, hc]

/-- Witness for C10 at a concrete state: one done-reporting task in the
queue while a checkpoint is active is moved to `gc_to_free`. -/
theorem C10_run_gc_one_step_witness :
    (memtx_engine_run_gc
      ⟨5, true, some (CheckpointModel.mk false false),
        [GcTask.mk 3 true], [], []⟩).stepped = [3] ∧
    (memtx_engine_run_gc
      ⟨5, true, some (CheckpointModel.mk false false),
        [GcTask.mk 3 true], [], []⟩).state.gc_to_free = [] ++ [GcTask.mk 3 true] ∧
    (memtx_engine_run_gc
      ⟨5, true, some (CheckpointModel.mk false false),
        [GcTask.mk 3 true], [], []⟩).state.freed = [] := by
  have h := (C10_run_gc_one_step
    ⟨5, true, some (CheckpointModel.mk false false),
      [GcTask.mk 3 true], [], []⟩).2.2 (GcTask.mk 3 true) [] rfl
  have h2 := (h.2.1 rfl).2.2 (by simp)
  exact ⟨h.1, h2.1, h2.2⟩

/-! ## Statement rollback (memtx_engine.c:330-370) -/

/-- The replace policy selector of a memtx space (the
`memtx_space->replace` function pointer): all keys maintained, primary
key only, or the snapshot-build selector ("building primary") that
rollback treats as impossible. -/
inductive MemtxReplaceMode where
  | memtx_space_replace_all_keys
  | memtx_space_replace_primary_key
  | memtx_space_replace_build_next
deriving DecidableEq

/-- The slice of `struct txn_stmt` rollback reads; tuples are identified
abstractly by number. -/
structure TxnStmtModel where
  old_tuple : Option Nat
  new_tuple : Option Nat
  engine_savepoint : Option Nat
deriving DecidableEq

/-- The slice of the statement's `struct space` / `struct memtx_space`
rollback reads. -/
structure MemtxSpaceModel where
  index_count : Nat
  replace : MemtxReplaceMode
deriving DecidableEq

/-- What one `memtx_engine_rollback_statement` call does: return without
touching anything, abort the process, or roll back, recording the
`index_replace(index[i], new, old)` calls in order (index number, first
argument, second argument), the `memtx_space_update_bsize` call, and the
`tuple_ref(old)` / `tuple_unref(new)` calls. -/
inductive RollbackOutcome where
  | returned_early
  | panicked
  | rolled_back (replaced : List (Nat × Option Nat × Option Nat))
      (bsize_updated : Bool) (reffed_old : Bool) (unreffed_new : Bool)
deriving DecidableEq

/-- `memtx_engine_rollback_statement` (lines 330-370): return if both
tuples are null or no engine savepoint was recorded; pick the touched
index count from the replace selector (all indexes, one, or panic);
swap new/old through `index_replace` on each touched index (the source
panics should a replace fail, which its contract rules out); update the
byte size; ref the old tuple and unref the new one when present. -/
def memtx_engine_rollback_statement (space : MemtxSpaceModel)
    (stmt : TxnStmtModel) : RollbackOutcome :=
  if stmt.old_tuple = none ∧ stmt.new_tuple = none then
    RollbackOutcome.returned_early
  else if stmt.engine_savepoint = none then
    RollbackOutcome.returned_early
  else
    match space.replace with
    | MemtxReplaceMode.memtx_space_replace_all_keys =>
      RollbackOutcome.rolled_back
        ((List.range space.index_count).map
          (fun i => (i, stmt.new_tuple, stmt.old_tuple)))
        true stmt.old_tuple.isSome stmt.new_tuple.isSome
    | MemtxReplaceMode.memtx_space_replace_primary_key =>
      RollbackOutcome.rolled_back
        ((List.range 1).map (fun i => (i, stmt.new_tuple, stmt.old_tuple)))
        true stmt.old_tuple.isSome stmt.new_tuple.isSome
    | MemtxReplaceMode.memtx_space_replace_build_next =>
      RollbackOutcome.panicked

/-- C6 counterexample: a statement with a recorded engine savepoint but
neither an old nor a new tuple (e.g. a delete that found nothing) in a
space whose selector is the building-primary one makes
`memtx_engine_rollback_statement` return early at the initial null
check, not abort the process as the claim demands for that selector. -/
theorem C6_rollback_null_stmt_counterexample :
    memtx_engine_rollback_statement
        ⟨2, MemtxReplaceMode.memtx_space_replace_build_next⟩
        ⟨none, none, some 0⟩ = RollbackOutcome.returned_early ∧
    memtx_engine_rollback_statement
        ⟨2, MemtxReplaceMode.memtx_space_replace_build_next⟩
        ⟨none, none, some 0⟩ ≠ RollbackOutcome.panicked := by
  constructor <;> decide

/-- C6 (amended): for every statement with a recorded engine savepoint at
least one of whose old/new tuples is present, rollback undoes the
replace by calling `index_replace(index, new, old)` with the arguments
swapped on every index when the selector is all-keys, on index 0 only
when it is primary-only, and aborts the process when it is the
building-primary selector; after the replaces it updates the space byte
size, re-references the old tuple and unreferences the new tuple (when
present). -/
theorem C6_rollback_statement_modes (space : MemtxSpaceModel)
    (stmt : TxnStmtModel) (hsv : stmt.engine_savepoint ≠ none)
    (htuples : ¬ (stmt.old_tuple = none ∧ stmt.new_tuple = none)) :
    (space.replace = MemtxReplaceMode.memtx_space_replace_all_keys →
      memtx_engine_rollback_statement space stmt =
        RollbackOutcome.rolled_back
          ((List.range space.index_count).map
            (fun i => (i, stmt.new_tuple, stmt.old_tuple)))
          true stmt.old_tuple.isSome stmt.new_tuple.isSome) ∧
    (space.replace = MemtxReplaceMode.memtx_space_replace_primary_key →
      memtx_engine_rollback_statement space stmt =
        RollbackOutcome.rolled_back [(0, stmt.new_tuple, stmt.old_tuple)]
          true stmt.old_tuple.isSome stmt.new_tuple.isSome) ∧
    (space.replace = MemtxReplaceMode.memtx_space_replace_build_next →
      memtx_engine_rollback_statement space stmt =
        RollbackOutcome.panicked) := by
  have hr1 : List.range 1 = [0] := rfl
  refine ⟨?_, ?_, ?_⟩ <;> intro hmode <;>
    simp [memtx_engine_rollback_statement, htuples, hsv, hmode, hr1]

/-- Witness for C6 at a concrete savepointed replace statement rolled
back in an all-keys space with three indexes. -/
theorem C6_rollback_statement_modes_witness :
    memtx_engine_rollback_statement
        ⟨3, MemtxReplaceMode.memtx_space_replace_all_keys⟩
        ⟨some 10, some 20, some 0⟩ =
      RollbackOutcome.rolled_back
        [(0, some 20, some 10), (1, some 20, some 10), (2, some 20, some 10)]
        true true true := by
  have h := (C6_rollback_statement_modes
    ⟨3, MemtxReplaceMode.memtx_space_replace_all_keys⟩
    ⟨some 10, some 20, some 0⟩ (by decide) (by decide)).1 rfl
  simpa using h

/-! ## Snapshot recovery scan (memtx_engine.c:148-196) -/

/-- One event produced by the xlog cursor during the recover-snapshot
scan: either `xlog_cursor_next` yields a row whose application via
`memtx_engine_recover_snapshot_row` succeeds or fails (`apply_ok`), or
the cursor itself fails with rc < 0. -/
inductive SnapRowEvent where
  | row (apply_ok : Bool)
  | cursor_error
deriving DecidableEq

/-- How the `while` loop of `memtx_engine_recover_snapshot` exits:
the cursor ran out of rows (rc > 0), a row application failed in
non-force mode (break with rc < 0), or the cursor errored (rc < 0). -/
inductive SnapLoopExit where
  | end_of_file
  | row_error
  | cursor_err
deriving DecidableEq

/-- Result of `memtx_engine_recover_snapshot`: return 0, return -1, or
the panic on a missing EOF marker. -/
inductive RecoverResult where
  | ok
  | err
  | panicked
deriving DecidableEq

/-- The scan loop (lines 166-182): consume cursor events in order; a row
that applies continues the scan; a row whose application fails breaks
with rc < 0 unless force_recovery, in which case the error is logged and
the scan continues; a cursor error exits with rc < 0.  Returns the exit
kind and the number of rows fetched. -/
def memtx_recover_snapshot_loop (force_recovery : Bool) :
    List SnapRowEvent → SnapLoopExit × Nat
  | [] => (SnapLoopExit.end_of_file, 0)
  | SnapRowEvent.cursor_error :: _ => (SnapLoopExit.cursor_err, 0)
  | SnapRowEvent.row apply_ok :: rest =>
    if apply_ok then
      let r := memtx_recover_snapshot_loop force_recovery rest
      (r.1, r.2 + 1)
    else if force_recovery then
      let r := memtx_recover_snapshot_loop force_recovery rest
      (r.1, r.2 + 1)
    else
      (SnapLoopExit.row_error, 1)

/-- `memtx_engine_recover_snapshot` (lines 148-196): run the scan loop;
return -1 when it exits with rc < 0; otherwise panic if the cursor saw
no EOF marker, else return 0.  Also reports how many rows were fetched
before the function returned. -/
def memtx_engine_recover_snapshot (force_recovery : Bool)
    (events : List SnapRowEvent) (has_eof : Bool) : RecoverResult × Nat :=
  let r := memtx_recover_snapshot_loop force_recovery events
  match r.1 with
  | SnapLoopExit.row_error => (RecoverResult.err, r.2)
  | SnapLoopExit.cursor_err => (RecoverResult.err, r.2)
  | SnapLoopExit.end_of_file =>
    if has_eof then (RecoverResult.ok, r.2) else (RecoverResult.panicked, r.2)

/-- C7: when applying a row fails during `memtx_engine_recover_snapshot`,
with force_recovery off the scan stops at that row and the function
returns an error; with force_recovery on the error is logged and the
scan continues through all remaining rows; and in both modes a scan that
reaches the end of the data without an EOF marker panics. -/
theorem C7_recover_snapshot_error_modes (events : List SnapRowEvent)
    (has_eof : Bool) :
    (∀ pre post, (∀ e ∈ pre, e = SnapRowEvent.row true) →
      events = pre ++ SnapRowEvent.row false :: post →
      memtx_engine_recover_snapshot false events has_eof =
        (RecoverResult.err, pre.length + 1)) ∧
    ((∀ e ∈ events, e ≠ SnapRowEvent.cursor_error) →
      memtx_engine_recover_snapshot true events has_eof =
        ((if has_eof then RecoverResult.ok else RecoverResult.panicked),
          events.length)) ∧
    ((∀ e ∈ events, e = SnapRowEvent.row true) → ∀ force_recovery,
      memtx_engine_recover_snapshot force_recovery events has_eof =
        ((if has_eof then RecoverResult.ok else RecoverResult.panicked),
          events.length)) := by
  have hloop_stop : ∀ (pre post : List SnapRowEvent),
      (∀ e ∈ pre, e = SnapRowEvent.row true) →
      memtx_recover_snapshot_loop false
          (pre ++ SnapRowEvent.row false :: post) =
        (SnapLoopExit.row_error, pre.length + 1) := by
    intro pre
    induction pre with
    | nil =>
      intro post _
      simp [memtx_recover_snapshot_loop]
    | cons e pre ih =>
      intro post hall
      have he : e = SnapRowEvent.row true := hall e (by simp)
      subst he
      have hall' : ∀ e ∈ pre, e = SnapRowEvent.row true :=
        fun e he => hall e (by simp [he])
      simp [memtx_recover_snapshot_loop, ih post hall']
  have hloop_all : ∀ (force_recovery : Bool) (evs : List SnapRowEvent),
      (∀ e ∈ evs, e ≠ SnapRowEvent.cursor_error) →
      (force_recovery = true ∨ ∀ e ∈ evs, e = SnapRowEvent.row true) →
      memtx_recover_snapshot_loop force_recovery evs =
        (SnapLoopExit.end_of_file, evs.length) := by
    intro force_recovery evs
    induction evs with
    | nil => intro _ _; simp [memtx_recover_snapshot_loop]
    | cons e rest ih =>
      intro hnc hok
      have hnc' : ∀ x ∈ rest, x ≠ SnapRowEvent.cursor_error :=
        fun x hx => hnc x (by simp [hx])
      cases e with
      | cursor_error => exact absurd rfl (hnc SnapRowEvent.cursor_error (by simp))
      | row apply_ok =>
        rcases hok with hf | hall
        · subst hf
          have hrec := ih hnc' (Or.inl rfl)
          cases apply_ok <;>
            simp [memtx_recover_snapshot_loop, hrec]
        · have : SnapRowEvent.row apply_ok = SnapRowEvent.row true :=
            hall _ (by simp)
          have hao : apply_ok = true := by injection this
          subst hao
          have hall' : ∀ x ∈ rest, x = SnapRowEvent.row true :=
            fun x hx => hall x (by simp [hx])
          have hrec := ih hnc' (Or.inr hall')
          simp [memtx_recover_snapshot_loop, hrec]
  refine ⟨?_, ?_, ?_⟩
  · intro pre post hall hev
    subst hev
    simp [memtx_engine_recover_snapshot, hloop_stop pre post hall]
  · intro hnc
    have := hloop_all true events hnc (Or.inl rfl)
    cases has_eof <;> simp [memtx_engine_recover_snapshot, this]
  · intro hall force_recovery
    have hnc : ∀ e ∈ events, e ≠ SnapRowEvent.cursor_error := by
      intro e he
      rw [hall e he]
      simp
    have := hloop_all force_recovery events hnc (Or.inr hall)
    cases has_eof <;> simp [memtx_engine_recover_snapshot, this]

/-- Witness for C7: a concrete three-row file whose second row fails to
apply stops the non-force scan at row two with an error; the same file
under force recovery is scanned to the end and, with the EOF marker
present, recovery succeeds having fetched all three rows. -/
theorem C7_recover_snapshot_error_modes_witness :
    memtx_engine_recover_snapshot false
        [SnapRowEvent.row true, SnapRowEvent.row false, SnapRowEvent.row true]
        true = (RecoverResult.err, 2) ∧
    memtx_engine_recover_snapshot true
        [SnapRowEvent.row true, SnapRowEvent.row false, SnapRowEvent.row true]
        true = (RecoverResult.ok, 3) := by
  constructor
  · have h := (C7_recover_snapshot_error_modes
      [SnapRowEvent.row true, SnapRowEvent.row false, SnapRowEvent.row true]
      true).1 [SnapRowEvent.row true] [SnapRowEvent.row true]
      (by intro e he; simpa using he) rfl
    simpa using h
  · have h := (C7_recover_snapshot_error_modes
      [SnapRowEvent.row true, SnapRowEvent.row false, SnapRowEvent.row true]
      true).2.1 (by decide)
    simpa using h

/-! ## Checkpoint writer (memtx_engine.c:398-599) -/

/-- IPROTO_INSERT request type code (iproto_constants.h). -/
def IPROTO_INSERT : Nat := 2

/-- The xrow header fields `checkpoint_write_row` fills in, plus the
body built by `checkpoint_write_tuple` (the space id and the tuple
bytes, identified abstractly by number). -/
structure XrowModel where
  typ : Nat
  group_id : Nat
  lsn : Nat
  tm : Nat
  replica_id : Nat
  sync : Nat
  space_id : Nat
  data : Nat
deriving DecidableEq

/-- Modelled from the spec: the xlog row accounting `l->rows + l->tx_rows`
lives in xlog.c, which is not part of this repository slice.  Per the
spec ("lsn = monotonically increasing per-file counter starting at 1")
and the comment in `checkpoint_write_row` ("Rows in snapshot are
numbered from 1 to %rows"), the combined counter reads N when the N-th
row of the file is assigned its lsn. -/
structure XlogModel where
  row_no : Nat
deriving DecidableEq

/-- Modelled from the spec: a freshly created snapshot xlog
(`xdir_create_xlog`) is about to write row number 1. -/
def xdir_create_xlog : XlogModel := XlogModel.mk 1

/-- Modelled from the spec: `xlog_write_row` advances the per-file row
counter by one. -/
def xlog_write_row (l : XlogModel) : XlogModel := XlogModel.mk (l.row_no + 1)

/-- `checkpoint_write_row` (lines 398-428): the function-static `last`
timestamp (0 = not yet captured) is captured from the event-loop clock
`now` on the first call of the whole process; the row then gets
tm = last, replica_id = 0, lsn = the xlog's combined row counter and
sync = 0, and is written.  Returns the new xlog state, the new value of
the static, and the written row. -/
def checkpoint_write_row (l : XlogModel) (last : Nat) (now : Nat)
    (row : XrowModel) : XlogModel × Nat × XrowModel :=
  let last1 := if last = 0 then now else last
  let row1 := { row with
    tm := last1
    replica_id := 0
    lsn := l.row_no
    sync := 0 }
  (xlog_write_row l, last1, row1)

/-- `checkpoint_write_tuple` (lines 430-452): build a row with
type = IPROTO_INSERT, the entry's group id and a body carrying the
space id and the tuple bytes, and hand it to `checkpoint_write_row`. -/
def checkpoint_write_tuple (l : XlogModel) (last : Nat) (now : Nat)
    (space_id : Nat) (group_id : Nat) (data : Nat) :
    XlogModel × Nat × XrowModel :=
  checkpoint_write_row l last now
    (XrowModel.mk IPROTO_INSERT group_id 0 0 0 0 space_id data)

/-- A checkpoint entry (`struct checkpoint_entry`: space id and group id
recorded by `checkpoint_add_space`) together with the tuples its
snapshot iterator yields, in order. -/
structure CheckpointEntryModel where
  space_id : Nat
  group_id : Nat
  tuples : List Nat
deriving DecidableEq

/-- The inner `while` of `checkpoint_f`: write every tuple one entry's
iterator yields.  Returns the xlog state, the static timestamp, and the
rows written, in order. -/
def checkpoint_write_entry_tuples (l : XlogModel) (last : Nat) (now : Nat)
    (space_id group_id : Nat) :
    List Nat → XlogModel × Nat × List XrowModel
  | [] => (l, last, [])
  | d :: ds =>
    let r1 := checkpoint_write_tuple l last now space_id group_id d
    let r2 := checkpoint_write_entry_tuples r1.1 r1.2.1 now space_id group_id ds
    (r2.1, r2.2.1, r1.2.2 :: r2.2.2)

/-- The `rlist_foreach_entry` loop of `checkpoint_f`: stream the entries
in insertion order. -/
def checkpoint_write_entries (l : XlogModel) (last : Nat) (now : Nat) :
    List CheckpointEntryModel → XlogModel × Nat × List XrowModel
  | [] => (l, last, [])
  | e :: es =>
    let r1 := checkpoint_write_entry_tuples l last now e.space_id e.group_id
      e.tuples
    let r2 := checkpoint_write_entries r1.1 r1.2.1 now es
    (r2.1, r2.2.1, r1.2.2 ++ r2.2.2)

/-- `checkpoint_f` (lines 555-599) on the I/O-failure-free path: when
`touch` is set only stamp the existing file and write nothing; otherwise
create the xlog and stream every entry.  Returns the rows written and
the final value of the function-static timestamp. -/
def checkpoint_f (touch : Bool) (last : Nat) (now : Nat)
    (entries : List CheckpointEntryModel) : List XrowModel × Nat :=
  if touch then ([], last)
  else
    let r := checkpoint_write_entries xdir_create_xlog last now entries
    (r.2.2, r.2.1)

/-- Once the static timestamp has been captured, capturing it again
yields the same value. -/
theorem tm_capture_idem (last now : Nat) :
    (if (if last = 0 then now else last) = 0 then now
     else (if last = 0 then now else last)) =
      (if last = 0 then now else last) := by
  by_cases h : last = 0 <;> by_cases h2 : now = 0 <;> simp [h, h2]

/-- Splitting a contiguous run of row numbers. -/
theorem list_range'_add (a : Nat) :
    ∀ (m n : Nat), List.range' a (m + n) = List.range' a m ++
      List.range' (a + m) n := by
  intro m
  induction m generalizing a with
  | zero => intro n; simp
  | succ k ih =>
    intro n
    have h1 : k + 1 + n = (k + n) + 1 := by omega
    have h2 : a + 1 + k = a + (k + 1) := by omega
    rw [h1, List.range'_succ, List.range'_succ, ih (a + 1) n, h2]
    simp [List.cons_append]

/-- Full characterization of the inner tuple-writing loop: the counter
advances by the tuple count, the static becomes its captured value (or
stays put for an empty iterator), and the rows pair consecutive row
numbers with the tuples, all carrying the captured timestamp. -/
theorem checkpoint_write_entry_tuples_eq (now sid gid : Nat) :
    ∀ (ds : List Nat) (l : XlogModel) (last : Nat),
      checkpoint_write_entry_tuples l last now sid gid ds =
        (XlogModel.mk (l.row_no + ds.length),
         (if ds.isEmpty then last else if last = 0 then now else last),
         ((List.range' l.row_no ds.length).zip ds).map
           (fun p => XrowModel.mk IPROTO_INSERT gid p.1
             (if last = 0 then now else last) 0 0 sid p.2)) := by
  intro ds
  induction ds with
  | nil => intro l last; rfl
  | cons d ds ih =>
    intro l last
    simp only [checkpoint_write_entry_tuples, checkpoint_write_tuple,
      checkpoint_write_row, xlog_write_row, ih, tm_capture_idem last now,
      List.isEmpty_cons, List.length_cons, List.range'_succ,
      List.zip_cons_cons, List.map_cons, ite_self]
    rw [show l.row_no + 1 + ds.length = l.row_no + (ds.length + 1) from by omega]
    simp

/-- Aggregate facts about the entry-streaming loop: the counter advances
by the number of rows written, the static timestamp either stays put or
becomes its captured value, the lsns of the rows written from counter
position N form the contiguous run N, N+1, ..., every row carries
type IPROTO_INSERT, replica_id 0, sync 0 and the captured timestamp, and
the bodies list exactly the entries' tuples in order with the owning
space and group ids. -/
theorem checkpoint_write_entries_spec (now : Nat) :
    ∀ (es : List CheckpointEntryModel) (l : XlogModel) (last : Nat),
      (checkpoint_write_entries l last now es).1.row_no =
          l.row_no + ((checkpoint_write_entries l last now es).2.2).length ∧
      ((checkpoint_write_entries l last now es).2.1 = last ∨
       (checkpoint_write_entries l last now es).2.1 =
          (if last = 0 then now else last)) ∧
      ((checkpoint_write_entries l last now es).2.2).map (fun r => r.lsn) =
        List.range' l.row_no
          ((checkpoint_write_entries l last now es).2.2).length ∧
      (∀ r ∈ (checkpoint_write_entries l last now es).2.2,
        r.typ = IPROTO_INSERT ∧ r.replica_id = 0 ∧ r.sync = 0 ∧
          r.tm = (if last = 0 then now else last)) ∧
      ((checkpoint_write_entries l last now es).2.2).map
          (fun r => (r.space_id, r.group_id, r.data)) =
        es.flatMap
          (fun e => e.tuples.map (fun d => (e.space_id, e.group_id, d))) := by
  intro es
  induction es with
  | nil =>
    intro l last
    exact ⟨rfl, Or.inl rfl, rfl, by simp [checkpoint_write_entries],
      by simp [checkpoint_write_entries]⟩
  | cons e es ih =>
    intro l last
    have hstep := checkpoint_write_entry_tuples_eq now e.space_id e.group_id
      e.tuples l last
    have hlast1 : (if e.tuples.isEmpty then last
        else if last = 0 then now else last) = last ∨
        (if e.tuples.isEmpty then last
          else if last = 0 then now else last) =
          (if last = 0 then now else last) := by
      by_cases hemp : e.tuples.isEmpty <;> simp [hemp]
    have hL1 : (if (if e.tuples.isEmpty then last
        else if last = 0 then now else last) = 0 then now
        else (if e.tuples.isEmpty then last
          else if last = 0 then now else last)) =
        (if last = 0 then now else last) := by
      by_cases hemp : e.tuples.isEmpty
      · simp [hemp]
      · simp only [hemp, if_false, Bool.false_eq_true]
        exact tm_capture_idem last now
    obtain ⟨ih1, ih2, ih3, ih4, ih5⟩ :=
      ih (XlogModel.mk (l.row_no + e.tuples.length))
        (if e.tuples.isEmpty then last else if last = 0 then now else last)
    rw [hL1] at ih4
    simp only [checkpoint_write_entries, hstep]
    have hlen1 : (((List.range' l.row_no e.tuples.length).zip e.tuples).map
        (fun p => XrowModel.mk IPROTO_INSERT e.group_id p.1
          (if last = 0 then now else last) 0 0 e.space_id p.2)).length =
        e.tuples.length := by
      simp [List.length_zip, List.length_range']
    have hfst := List.map_fst_zip (List.range' l.row_no e.tuples.length)
      e.tuples (le_of_eq (by simp))
    have hsnd := List.map_snd_zip (List.range' l.row_no e.tuples.length)
      e.tuples (le_of_eq (by simp))
    refine ⟨?_, ?_, ?_, ?_, ?_⟩
    · simp only [List.length_append, hlen1, ih1]
      omega
    · rcases ih2 with h | h
      · rw [h]; exact hlast1
      · rw [h, hL1]; exact Or.inr rfl
    · simp only [List.map_append, List.length_append, hlen1]
      rw [List.map_map]
      have h3a : (((List.range' l.row_no e.tuples.length).zip e.tuples).map
          ((fun r : XrowModel => r.lsn) ∘
            (fun p : Nat × Nat => XrowModel.mk IPROTO_INSERT e.group_id p.1
              (if last = 0 then now else last) 0 0 e.space_id p.2))) =
          List.range' l.row_no e.tuples.length := hfst
      rw [h3a, ih3]
      rw [list_range'_add l.row_no e.tuples.length]
    · intro r hr
      rcases List.mem_append.mp hr with hr1 | hr2
      · obtain ⟨p, -, rfl⟩ := List.mem_map.mp hr1
        exact ⟨rfl, rfl, rfl, rfl⟩
      · exact ih4 r hr2
    · simp only [List.map_append, List.flatMap_cons]
      rw [List.map_map, ih5]
      have h5a : (((List.range' l.row_no e.tuples.length).zip e.tuples).map
          ((fun r : XrowModel => (r.space_id, r.group_id, r.data)) ∘
            (fun p : Nat × Nat => XrowModel.mk IPROTO_INSERT e.group_id p.1
              (if last = 0 then now else last) 0 0 e.space_id p.2))) =
          e.tuples.map (fun d => (e.space_id, e.group_id, d)) := by
        have : (((List.range' l.row_no e.tuples.length).zip e.tuples).map
            Prod.snd).map (fun d => (e.space_id, e.group_id, d)) =
            e.tuples.map (fun d => (e.space_id, e.group_id, d)) := by
          rw [hsnd]
        rw [List.map_map] at this
        exact this
      rw [h5a]

/-- The tm conjunct of claim C8 as the spec words it ("captured once per
file"): every row of a snapshot file carries the event-loop clock value
read while that very file is being written. -/
def checkpoint_tm_captured_per_file (last now : Nat)
    (entries : List CheckpointEntryModel) : Prop :=
  ∀ r ∈ (checkpoint_f false last now entries).1, r.tm = now

/-- C8 counterexample: the `static ev_tstamp last` in
`checkpoint_write_row` is captured once per process, not once per file.
After a first snapshot file is written at clock 100 the static holds
100, and the rows of a second file written at clock 200 still carry
tm = 100, not the clock value 200 of their own file. -/
theorem C8_tm_once_per_process_counterexample :
    (checkpoint_f false 0 100 [CheckpointEntryModel.mk 280 1 [11]]).2 = 100 ∧
    ¬ checkpoint_tm_captured_per_file 100 200
        [CheckpointEntryModel.mk 281 1 [22]] := by
  constructor
  · rfl
  · simp only [checkpoint_tm_captured_per_file]
    decide

/-- C8 (amended): every row written to a snapshot file by the checkpoint
writer carries type = IPROTO_INSERT, the owning entry's group id (with
the space id and tuple bytes in its body, entry by entry in iterator
order), an lsn equal to the monotonically increasing per-file counter
starting at 1, replica_id = 0, sync = 0, and a tm timestamp uniform
across the file: the value of the process-wide static, captured from the
wall clock only at the first snapshot row the process ever writes, not
once per file. -/
theorem C8_checkpoint_row_fields (last now : Nat)
    (entries : List CheckpointEntryModel) :
    ((checkpoint_f false last now entries).1).map (fun r => r.lsn) =
      List.range' 1 ((checkpoint_f false last now entries).1).length ∧
    (∀ r ∈ (checkpoint_f false last now entries).1,
      r.typ = IPROTO_INSERT ∧ r.replica_id = 0 ∧ r.sync = 0 ∧
        r.tm = (if last = 0 then now else last)) ∧
    ((checkpoint_f false last now entries).1).map
        (fun r => (r.space_id, r.group_id, r.data)) =
      entries.flatMap
        (fun e => e.tuples.map (fun d => (e.space_id, e.group_id, d))) := by
  obtain ⟨-, -, h3, h4, h5⟩ :=
    checkpoint_write_entries_spec now entries xdir_create_xlog last
  exact ⟨h3, h4, h5⟩

/-! ## Tuple chunk allocation (memtx_engine.c:1133-1148) -/

/-- Observable behavior of one `memtx_tuple_chunk_new` call: either a
well-defined return (the chunk's data, or NULL with an out-of-memory
diagnostic set), or a write through a null pointer. -/
inductive ChunkNewOutcome where
  | ret (chunk_data : Option Nat) (oom_set : Bool)
  | null_write
deriving DecidableEq

/-- `memtx_tuple_chunk_new` (lines 1133-1148) as written: allocate
`tuple_chunk_sz(data_sz)` bytes (`alloc_result` is what `smalloc`
returns), then null-check the unrelated `tuple` parameter instead of the
fresh `tuple_chunk`; when that check passes the code stores `data_sz`
and the payload through the chunk pointer, which is a null write when
the allocation in fact failed; when the check fires it sets
out-of-memory and returns NULL regardless of the allocation result. -/
def memtx_tuple_chunk_new (tuple : Option Nat) (alloc_result : Option Nat) :
    ChunkNewOutcome :=
  match tuple with
  | none => ChunkNewOutcome.ret none true
  | some _ =>
    match alloc_result with
    | none => ChunkNewOutcome.null_write
    | some chunk => ChunkNewOutcome.ret (some chunk) false

/-- C9: at the failing input (a non-null tuple argument and a failed
small-object allocation) `memtx_tuple_chunk_new` as written dereferences
the null chunk pointer instead of detecting the failure, setting
out-of-memory and returning null as the claim (and the spec's stated
intent) requires: its null-check tests the wrong variable. -/
theorem C9_chunk_new_null_check_wrong_variable :
    memtx_tuple_chunk_new (some 7) none = ChunkNewOutcome.null_write ∧
    memtx_tuple_chunk_new (some 7) none ≠ ChunkNewOutcome.ret none true := by
  constructor <;> decide
